import Mathlib

/-!
Shallow embedding of two components of a libp2p stack, translated from the Go
source: the webtransport listener (HTTP upgrade handler, accept queue,
`Accept`) and the AutoNAT v2 reachability client (`CheckReachability`,
`handleDialBack`, `newResults`, `areAddrsConsistent`).  Effects of the Go code
(network reads/writes, the resource-manager scope, the mutex-guarded
nonce-to-channel map) are made explicit: fallible collaborator calls become
boolean/optional fields of an environment record, stream writes become an
output list of messages, and map mutation becomes state passing.
-/

set_option autoImplicit false

namespace LibP2P

/-- One component of a multiaddr, mirroring `ma.Protocol`: a numeric protocol
code plus a name (only the code is inspected by the consistency check). -/
structure Protocol where
  code : Nat
  name : String
deriving DecidableEq, Repr

/-- A multiaddr: its ordered protocol components plus the concrete
non-protocol field values (ports, host bytes, ...) which the consistency
check ignores.  A Go `nil` multiaddr is represented as `none` at use sites. -/
structure Multiaddr where
  protocols : List Protocol
  values : List Nat
deriving DecidableEq, Repr

/-- Sample address `/ip4/…/udp/8080` used for concrete witnesses. -/
def addr4 : Multiaddr := ⟨[⟨4, "ip4"⟩, ⟨273, "udp"⟩], [8080]⟩

/-- Same protocol-code sequence as `addr4` but a different port value. -/
def addr4b : Multiaddr := ⟨[⟨4, "ip4"⟩, ⟨273, "udp"⟩], [9090]⟩

/-- `/ip6/…/udp/8080`: a different protocol-code sequence. -/
def addr6 : Multiaddr := ⟨[⟨41, "ip6"⟩, ⟨273, "udp"⟩], [8080]⟩

/-- `slices.EqualFunc`: equal lengths and pointwise agreement under `f`. -/
def slicesEqualFunc {α β : Type} (f : α → β → Bool) : List α → List β → Bool
  | [], [] => true
  | a :: as, b :: bs => f a b && slicesEqualFunc f as bs
  | _, _ => false

/-- `areAddrsConsistent`: false when either address is nil, otherwise compare
the two protocol lists pointwise by code (`slices.EqualFunc`). -/
def areAddrsConsistent (a b : Option Multiaddr) : Bool :=
  match a, b with
  | none, _ => false
  | _, none => false
  | some a, some b =>
    slicesEqualFunc (fun p1 p2 => p1.code == p2.code) a.protocols b.protocols

theorem slicesEqualFunc_code_iff (xs ys : List Protocol) :
    slicesEqualFunc (fun p1 p2 => p1.code == p2.code) xs ys = true ↔
      xs.map Protocol.code = ys.map Protocol.code := by
  induction xs generalizing ys with
  | nil => cases ys <;> simp [slicesEqualFunc]
  | cons x xs ih =>
    cases ys with
    | nil => simp [slicesEqualFunc]
    | cons y ys => simp [slicesEqualFunc, ih]

/-- C7: the address-consistency check succeeds exactly when both addresses are
defined (non-nil) and their ordered protocol-code sequences agree elementwise;
concrete non-protocol field values play no role. -/
theorem areAddrsConsistent_iff (a b : Option Multiaddr) :
    areAddrsConsistent a b = true ↔
      ∃ x y, a = some x ∧ b = some y ∧
        x.protocols.map Protocol.code = y.protocols.map Protocol.code := by
  cases a with
  | none => simp [areAddrsConsistent]
  | some x =>
    cases b with
    | none => simp [areAddrsConsistent]
    | some y => simp [areAddrsConsistent, slicesEqualFunc_code_iff]

/-! ## AutoNAT v2 wire messages and client state -/

/-- `pb.DialResponse_ResponseStatus`: the top-level status of a Dial Response. -/
inductive ResponseStatus where
  | E_INTERNAL_ERROR
  | E_REQUEST_REJECTED
  | E_DIAL_REFUSED
  | OK
deriving DecidableEq, Repr

/-- `pb.DialStatus`: the per-address dial outcome inside a Dial Response.
`UNUSED` is the protobuf zero value. -/
inductive DialStatus where
  | UNUSED
  | E_DIAL_ERROR
  | E_DIAL_BACK_ERROR
  | OK
deriving DecidableEq, Repr

/-- `pb.DialResponse`. -/
structure DialResponse where
  status : ResponseStatus
  dialStatus : DialStatus
  addrIdx : Nat
deriving DecidableEq, Repr

/-- `pb.Message` variants exchanged on the dial stream.  Dial Data Response
payloads are arbitrary filler, so only their byte count is modelled. -/
inductive Msg where
  | dialRequest (addrs : List Multiaddr) (nonce : Nat)
  | dialResponse (resp : DialResponse)
  | dialDataRequest (addrIdx : Nat) (numBytes : Nat)
  | dialDataResponse (numBytes : Nat)
deriving DecidableEq, Repr

/-- `network.Reachability`. -/
inductive Reachability where
  | Unknown
  | Public
  | Private
deriving DecidableEq, Repr

/-- `Result` returned by `CheckReachability`. -/
structure Result where
  idx : Nat
  addr : Multiaddr
  reachability : Reachability
  status : DialStatus
deriving DecidableEq, Repr

/-- The distinct error returns of `CheckReachability`, one per `return`
carrying a non-nil error in the Go source.  `dialRefused` wraps
`ErrDialRefused`; `statusErr` carries the non-OK response status. -/
inductive CRError where
  | streamOpenFailed
  | setServiceFailed
  | reserveMemoryFailed
  | dialRequestWrite
  | dialMsgRead
  | dialDataLowPriority
  | dialDataTooHigh (numBytes : Nat)
  | dialDataSend
  | dialResponseRead
  | invalidResponseType
  | invalidMsgType
  | dialRefused
  | statusErr (status : ResponseStatus)
  | invalidDialStatusZero
  | addrIdxOutOfRange (idx : Nat)
deriving DecidableEq, Repr

/-- An opaque identifier for one `chan ma.Multiaddr` value; the
nonce-to-channel map stores channel identities, channel contents live in a
separate table (`CorrState.chans`), matching Go where the map holds channel
references. -/
abbrev ChanId := Nat

/-- Lookup in an association-list model of a Go map. -/
def lookupQ (q : List (Nat × ChanId)) (k : Nat) : Option ChanId :=
  (q.find? (fun p => p.1 == k)).map (·.2)

/-- Go `delete(m, k)`. -/
def deleteQ (q : List (Nat × ChanId)) (k : Nat) : List (Nat × ChanId) :=
  q.filter (fun p => p.1 ≠ k)

/-- Go `m[k] = v` (overwrites any previous binding). -/
def insertQ (q : List (Nat × ChanId)) (k : Nat) (v : ChanId) :
    List (Nat × ChanId) :=
  (k, v) :: deleteQ q k

@[simp] theorem lookupQ_deleteQ (q : List (Nat × ChanId)) (k : Nat) :
    lookupQ (deleteQ q k) k = none := by
  have h : List.find? (fun p => p.1 == k) (deleteQ q k) = none := by
    rw [List.find?_eq_none]
    intro p hp
    have hne := List.of_mem_filter hp
    simp only [ne_eq, decide_not, Bool.not_eq_true', decide_eq_false_iff_not] at hne
    simp [hne]
  simp [lookupQ, h]

/-! ## Reachability client (`CheckReachability` and helpers) -/

/-- Length of the client's reusable dial-data buffer: `NewClient` builds
`dialData: make([]byte, 4096)`. -/
def dialDataBufLen : Nat := 4096

/-- Modelled from the spec: the hard maximum a server may demand in a Dial
Data Request ("a bounded number of bytes ... e.g. tens of KB").  The constant
`maxHandshakeSizeBytes` itself is declared outside the source on hand; only
the comparison against it matters to the claims. -/
def maxHandshakeSizeBytes : Nat := 100000

/-- `newDialRequest`: both address lists concatenated, high-priority first,
plus the nonce. -/
def newDialRequest (highPriorityAddrs lowPriorityAddrs : List Multiaddr)
    (nonce : Nat) : Msg :=
  .dialRequest (highPriorityAddrs ++ lowPriorityAddrs) nonce

/-- Chunk sizes produced by the loop in `sendDialData`: each message carries
`min remain dialDataBufLen` filler bytes until `remain` is exhausted. -/
def dialDataChunks (remain : Nat) : List Nat :=
  if h : remain = 0 then []
  else
    have : remain - min remain dialDataBufLen < remain := by
      have h1 : 1 ≤ min remain dialDataBufLen := by
        simp [dialDataBufLen, Nat.one_le_iff_ne_zero, Nat.min_eq_zero_iff, h]
      omega
    min remain dialDataBufLen :: dialDataChunks (remain - min remain dialDataBufLen)
termination_by remain

/-- The Dial Data Response messages `sendDialData` writes for a demand of
`nb` bytes, and whether all writes succeeded.  `failAt = some k` models the
k-th `WriteMsg` returning an error (messages before it were written). -/
def sendDialData (nb : Nat) (failAt : Option Nat) : List Msg × Bool :=
  let chunks := (dialDataChunks nb).map Msg.dialDataResponse
  match failAt with
  | none => (chunks, true)
  | some k => if k < chunks.length then (chunks.take k, false) else (chunks, true)

/-- Address selection inside `newResults`: `highPriorityAddrs[idx]` when the
index falls in the high-priority range, else
`lowPriorityAddrs[idx-len(high)]` (total via a default that range-checked
callers never hit). -/
def addrAt (highPriorityAddrs lowPriorityAddrs : List Multiaddr)
    (idx : Nat) : Multiaddr :=
  if idx < highPriorityAddrs.length then
    highPriorityAddrs.getD idx ⟨[], []⟩
  else
    lowPriorityAddrs.getD (idx - highPriorityAddrs.length) ⟨[], []⟩

/-- `Client.newResults`: range-check the response's address index, select the
dialed address, then classify reachability from the dial status and the
dial-back address. -/
def newResults (resp : DialResponse)
    (highPriorityAddrs lowPriorityAddrs : List Multiaddr)
    (dialBackAddr : Option Multiaddr) : Except CRError Result :=
  if resp.addrIdx ≥ highPriorityAddrs.length + lowPriorityAddrs.length then
    .error (.addrIdxOutOfRange resp.addrIdx)
  else
    let idx := resp.addrIdx
    let addr := addrAt highPriorityAddrs lowPriorityAddrs idx
    let rs : Reachability × DialStatus :=
      match resp.dialStatus with
      | .OK =>
        if areAddrsConsistent dialBackAddr (some addr) then
          (.Public, .OK)
        else
          (.Unknown, .E_DIAL_BACK_ERROR)
      | .E_DIAL_ERROR => (.Private, .E_DIAL_ERROR)
      | s => (.Unknown, s)
    .ok ⟨idx, addr, rs.1, rs.2⟩

/-- The tail of `CheckReachability` from `resp := msg.GetDialResponse()` on:
top-level status dispatch, the UNUSED dial-status check, the dial-back race
(whose outcome is abstracted as `race`: `some a` when the nonce's channel
delivered `a` before timeout/cancellation, `none` otherwise), then
`newResults`. -/
def processDialResponse (resp : DialResponse)
    (highPriorityAddrs lowPriorityAddrs : List Multiaddr)
    (race : Option Multiaddr) : Except CRError Result :=
  if resp.status ≠ .OK then
    if resp.status = .E_DIAL_REFUSED then .error .dialRefused
    else .error (.statusErr resp.status)
  else if resp.dialStatus = .UNUSED then
    .error .invalidDialStatusZero
  else
    let dialBackAddr : Option Multiaddr :=
      if resp.dialStatus = .OK ∧
          resp.addrIdx < highPriorityAddrs.length + lowPriorityAddrs.length then
        race
      else none
    newResults resp highPriorityAddrs lowPriorityAddrs dialBackAddr

/-- The non-deterministic surroundings of one `CheckReachability` call: which
collaborator calls succeed, what the two stream reads return (`none` = read
error), where dial-data writes fail, the dial-back race outcome, the random
nonce and the identity of the freshly made channel. -/
structure CREnv where
  streamOpenOk : Bool
  setServiceOk : Bool
  reserveMemoryOk : Bool
  writeRequestOk : Bool
  read1 : Option Msg
  dialDataFailAt : Option Nat
  read2 : Option Msg
  raceOutcome : Option Multiaddr
  nonce : Nat
  chanId : ChanId
deriving DecidableEq, Repr

instance {ε α : Type} [DecidableEq ε] [DecidableEq α] : DecidableEq (Except ε α)
  | .error a, .error b =>
    if h : a = b then .isTrue (by rw [h]) else .isFalse (by simp [h])
  | .error _, .ok _ => .isFalse (by simp)
  | .ok _, .error _ => .isFalse (by simp)
  | .ok a, .ok b =>
    if h : a = b then .isTrue (by rw [h]) else .isFalse (by simp [h])

/-- Observable outcome of one `CheckReachability` call: its return value, the
messages written to the stream (in order), and the nonce-to-channel map at
return. -/
structure CROutput where
  res : Except CRError Result
  writes : List Msg
  queues : List (Nat × ChanId)
deriving DecidableEq, Repr

/-- `Client.CheckReachability`, with the stream and collaborators abstracted
by `env` and the `dialBackQueues` map threaded as state (`queues0` on entry).
The deferred `delete(ac.dialBackQueues, nonce)` runs on every return after
the registration, so all such paths return `deleteQ (insertQ ...)`. -/
def CheckReachability (env : CREnv)
    (highPriorityAddrs lowPriorityAddrs : List Multiaddr)
    (queues0 : List (Nat × ChanId)) : CROutput :=
  if ¬env.streamOpenOk then ⟨.error .streamOpenFailed, [], queues0⟩
  else if ¬env.setServiceOk then ⟨.error .setServiceFailed, [], queues0⟩
  else if ¬env.reserveMemoryOk then ⟨.error .reserveMemoryFailed, [], queues0⟩
  else
    let q1 := insertQ queues0 env.nonce env.chanId
    let finish : Except CRError Result → List Msg → CROutput :=
      fun r w => ⟨r, w, deleteQ q1 env.nonce⟩
    if ¬env.writeRequestOk then finish (.error .dialRequestWrite) []
    else
      let w0 := [newDialRequest highPriorityAddrs lowPriorityAddrs env.nonce]
      match env.read1 with
      | none => finish (.error .dialMsgRead) w0
      | some (.dialResponse resp) =>
        finish (processDialResponse resp highPriorityAddrs lowPriorityAddrs
          env.raceOutcome) w0
      | some (.dialDataRequest idx nb) =>
        if idx ≥ highPriorityAddrs.length then
          finish (.error .dialDataLowPriority) w0
        else if nb > maxHandshakeSizeBytes then
          finish (.error (.dialDataTooHigh nb)) w0
        else
          let dd := sendDialData nb env.dialDataFailAt
          let w1 := w0 ++ dd.1
          if ¬dd.2 then finish (.error .dialDataSend) w1
          else
            match env.read2 with
            | none => finish (.error .dialResponseRead) w1
            | some (.dialResponse resp) =>
              finish (processDialResponse resp highPriorityAddrs
                lowPriorityAddrs env.raceOutcome) w1
            | some _ => finish (.error .invalidResponseType) w1
      | some _ => finish (.error .invalidMsgType) w0

/-- The three collaborator calls preceding nonce registration, plus the dial
request write, all succeed. -/
def preOk (env : CREnv) : Prop :=
  env.streamOpenOk = true ∧ env.setServiceOk = true ∧
    env.reserveMemoryOk = true ∧ env.writeRequestOk = true

/-- The exchange on the stream yields the Dial Response `resp`: either it is
the first message read, or the first message is a Dial Data Request that
passes both validations, all data writes succeed, and the second read yields
`resp`. -/
def readsDialResponse (env : CREnv) (highPriorityAddrs : List Multiaddr)
    (resp : DialResponse) : Prop :=
  env.read1 = some (.dialResponse resp) ∨
    ∃ idx nb, env.read1 = some (.dialDataRequest idx nb) ∧
      idx < highPriorityAddrs.length ∧ nb ≤ maxHandshakeSizeBytes ∧
      env.dialDataFailAt = none ∧ env.read2 = some (.dialResponse resp)

theorem CheckReachability_res_of_reads (env : CREnv)
    (high low : List Multiaddr) (q0 : List (Nat × ChanId))
    (resp : DialResponse) (hpre : preOk env)
    (hr : readsDialResponse env high resp) :
    (CheckReachability env high low q0).res =
      processDialResponse resp high low env.raceOutcome := by
  obtain ⟨h1, h2, h3, h4⟩ := hpre
  rcases hr with h | ⟨idx, nb, hread, hidx, hnb, hfail, hread2⟩
  · simp [CheckReachability, h1, h2, h3, h4, h]
  · simp [CheckReachability, h1, h2, h3, h4, hread, hfail, hread2,
      sendDialData, Nat.not_le.mpr hidx, Nat.not_lt.mpr hnb]

theorem CheckReachability_queues_shape (env : CREnv)
    (high low : List Multiaddr) (q0 : List (Nat × ChanId))
    (h1 : env.streamOpenOk = true) (h2 : env.setServiceOk = true)
    (h3 : env.reserveMemoryOk = true) :
    (CheckReachability env high low q0).queues =
      deleteQ (insertQ q0 env.nonce env.chanId) env.nonce := by
  obtain ⟨so, ss, rm, wr, r1, fa, r2, race, nonce, cid⟩ := env
  simp only at h1 h2 h3
  subst h1; subst h2; subst h3
  simp only [CheckReachability]
  cases wr
  · rfl
  · cases r1 with
    | none => rfl
    | some m =>
      cases m with
      | dialRequest addrs n => rfl
      | dialResponse resp => rfl
      | dialDataResponse n => rfl
      | dialDataRequest idx nb =>
        by_cases hi : idx ≥ high.length
        · simp [hi]
        · by_cases hb : nb > maxHandshakeSizeBytes
          · simp [hi, hb]
          · simp only [hi, hb, ite_false, if_neg, not_false_iff]
            cases hdd : (sendDialData nb fa).2
            · simp [hdd]
            · cases r2 with
              | none => simp [hdd]
              | some m2 => cases m2 <;> simp [hdd]

/-- C4: every `CheckReachability` call that registers its nonce in the
nonce-to-channel map (i.e. one that passes the three collaborator calls
preceding registration) leaves the map without an entry for that nonce on
return, on every exit path — success, any error return, or timeout. -/
theorem CheckReachability_nonce_absent (env : CREnv)
    (high low : List Multiaddr) (q0 : List (Nat × ChanId))
    (h1 : env.streamOpenOk = true) (h2 : env.setServiceOk = true)
    (h3 : env.reserveMemoryOk = true) :
    lookupQ (CheckReachability env high low q0).queues env.nonce = none := by
  rw [CheckReachability_queues_shape env high low q0 h1 h2 h3]
  exact lookupQ_deleteQ _ _

/-- Witness for C4 at a concrete call (read error path, nonce 7, a map that
already held an entry for nonce 7). -/
theorem CheckReachability_nonce_absent_witness :
    lookupQ (CheckReachability ⟨true, true, true, true, none, none, none,
      none, 7, 3⟩ [] [] [(7, 2)]).queues 7 = none :=
  CheckReachability_nonce_absent
    ⟨true, true, true, true, none, none, none, none, 7, 3⟩ [] [] [(7, 2)]
    rfl rfl rfl

/-- C3: a Dial Data Request whose address index is at or past the end of the
high-priority list, or whose byte demand exceeds `maxHandshakeSizeBytes`,
makes `CheckReachability` return an error, and no Dial Data Response is ever
written to the stream (the only write is the initial Dial Request). -/
theorem CheckReachability_dialData_validation (env : CREnv)
    (high low : List Multiaddr) (q0 : List (Nat × ChanId)) (idx nb : Nat)
    (hpre : preOk env)
    (hr : env.read1 = some (.dialDataRequest idx nb))
    (hbad : idx ≥ high.length ∨ nb > maxHandshakeSizeBytes) :
    (∃ e, (CheckReachability env high low q0).res = .error e) ∧
      ∀ m ∈ (CheckReachability env high low q0).writes,
        ∀ k, m ≠ .dialDataResponse k := by
  obtain ⟨h1, h2, h3, h4⟩ := hpre
  by_cases hi : idx ≥ high.length
  · simp [CheckReachability, h1, h2, h3, h4, hr, hi, newDialRequest]
  · have hb : nb > maxHandshakeSizeBytes := hbad.resolve_left hi
    simp [CheckReachability, h1, h2, h3, h4, hr, hi, hb, newDialRequest]

/-- Witness for C3: two high-priority addresses, a Dial Data Request for
index 2 — the error return and the absence of any Dial Data Response are
obtained from the theorem. -/
theorem CheckReachability_dialData_validation_witness :
    (∃ e, (CheckReachability ⟨true, true, true, true,
        some (.dialDataRequest 2 64), none, none, none, 7, 0⟩
        [addr4, addr4b] [] []).res = .error e) ∧
      ∀ m ∈ (CheckReachability ⟨true, true, true, true,
        some (.dialDataRequest 2 64), none, none, none, 7, 0⟩
        [addr4, addr4b] [] []).writes, ∀ k, m ≠ .dialDataResponse k :=
  CheckReachability_dialData_validation
    ⟨true, true, true, true, some (.dialDataRequest 2 64), none, none,
      none, 7, 0⟩
    [addr4, addr4b] [] [] 2 64 ⟨rfl, rfl, rfl, rfl⟩ rfl (Or.inl (by decide))

/-- C6: interpretation of a Dial Response read by `CheckReachability` — a
refusal status yields the distinguished dial-refused error, any other non-OK
status yields the generic status error carrying that status, and status OK
with the UNUSED per-address dial status yields the protocol-violation error;
in each case no `Result` is produced. -/
theorem CheckReachability_response_status_errors (env : CREnv)
    (high low : List Multiaddr) (q0 : List (Nat × ChanId))
    (resp : DialResponse) (hpre : preOk env)
    (hr : readsDialResponse env high resp) :
    (resp.status = .E_DIAL_REFUSED →
      (CheckReachability env high low q0).res = .error .dialRefused) ∧
    (resp.status ≠ .OK → resp.status ≠ .E_DIAL_REFUSED →
      (CheckReachability env high low q0).res =
        .error (.statusErr resp.status)) ∧
    (resp.status = .OK → resp.dialStatus = .UNUSED →
      (CheckReachability env high low q0).res =
        .error .invalidDialStatusZero) := by
  rw [CheckReachability_res_of_reads env high low q0 resp hpre hr]
  refine ⟨fun h => ?_, fun h h' => ?_, fun h h' => ?_⟩
  · simp [processDialResponse, h]
  · simp [processDialResponse, h, h']
  · simp [processDialResponse, h, h']

/-- Witness for C6 at a concrete refused response. -/
theorem CheckReachability_response_status_errors_witness :
    (CheckReachability ⟨true, true, true, true,
      some (.dialResponse ⟨.E_DIAL_REFUSED, .UNUSED, 0⟩), none, none,
      none, 7, 0⟩ [addr4] [] []).res = .error .dialRefused :=
  (CheckReachability_response_status_errors
    ⟨true, true, true, true,
      some (.dialResponse ⟨.E_DIAL_REFUSED, .UNUSED, 0⟩), none, none,
      none, 7, 0⟩ [addr4] [] [] ⟨.E_DIAL_REFUSED, .UNUSED, 0⟩
    ⟨rfl, rfl, rfl, rfl⟩ (Or.inl rfl)).1 rfl

/-- C1 (amended: the response's address index is additionally assumed in
range, as the out-of-range counterexample forces): for a Dial Response with
top-level status OK and per-address dial status other than UNUSED,
`CheckReachability` returns a `Result` (not an error) whose reachability is
public exactly when the dial status is OK and a dial-back address consistent
with the address at the resolved index was obtained, private exactly when the
dial status is the dial-error value, and whose status is downgraded to the
dial-back-error value when the dial status was OK but no consistent dial-back
address was obtained. -/
theorem CheckReachability_ok_classification (env : CREnv)
    (high low : List Multiaddr) (q0 : List (Nat × ChanId))
    (resp : DialResponse) (hpre : preOk env)
    (hr : readsDialResponse env high resp)
    (hst : resp.status = .OK) (hds : resp.dialStatus ≠ .UNUSED)
    (hidx : resp.addrIdx < high.length + low.length) :
    ∃ r : Result,
      (CheckReachability env high low q0).res = .ok r ∧
      r.idx = resp.addrIdx ∧
      r.addr = addrAt high low resp.addrIdx ∧
      (r.reachability = .Public ↔
        resp.dialStatus = .OK ∧
          areAddrsConsistent env.raceOutcome
            (some (addrAt high low resp.addrIdx)) = true) ∧
      (r.reachability = .Private ↔ resp.dialStatus = .E_DIAL_ERROR) ∧
      (resp.dialStatus = .OK →
        areAddrsConsistent env.raceOutcome
          (some (addrAt high low resp.addrIdx)) = true → r.status = .OK) ∧
      (resp.dialStatus = .OK →
        areAddrsConsistent env.raceOutcome
          (some (addrAt high low resp.addrIdx)) = false →
        r.status = .E_DIAL_BACK_ERROR) ∧
      (resp.dialStatus ≠ .OK → r.status = resp.dialStatus) := by
  rw [CheckReachability_res_of_reads env high low q0 resp hpre hr]
  have hnotge : ¬resp.addrIdx ≥ high.length + low.length := Nat.not_le.mpr hidx
  cases hd : resp.dialStatus with
  | UNUSED => exact absurd hd hds
  | OK =>
    by_cases hc : areAddrsConsistent env.raceOutcome
        (some (addrAt high low resp.addrIdx)) = true
    · have hres : processDialResponse resp high low env.raceOutcome =
          .ok ⟨resp.addrIdx, addrAt high low resp.addrIdx, .Public, .OK⟩ := by
        simp [processDialResponse, hst, hd, hidx, newResults, hnotge, hc]
      exact ⟨_, hres, rfl, rfl, by simp [hc], by simp, fun _ _ => rfl,
        fun _ hcf => by rw [hcf] at hc; exact Bool.noConfusion hc,
        fun h => absurd rfl h⟩
    · have hcf : areAddrsConsistent env.raceOutcome
          (some (addrAt high low resp.addrIdx)) = false :=
        Bool.eq_false_iff.mpr hc
      have hres : processDialResponse resp high low env.raceOutcome =
          .ok ⟨resp.addrIdx, addrAt high low resp.addrIdx, .Unknown,
            .E_DIAL_BACK_ERROR⟩ := by
        simp [processDialResponse, hst, hd, hidx, newResults, hnotge, hcf]
      exact ⟨_, hres, rfl, rfl, by simp [hc], by simp,
        fun _ hct => by rw [hct] at hcf; exact Bool.noConfusion hcf,
        fun _ _ => rfl, fun h => absurd rfl h⟩
  | E_DIAL_ERROR =>
    have hres : processDialResponse resp high low env.raceOutcome =
        .ok ⟨resp.addrIdx, addrAt high low resp.addrIdx, .Private,
          .E_DIAL_ERROR⟩ := by
      simp [processDialResponse, hst, hd, newResults, hnotge]
    exact ⟨_, hres, rfl, rfl, by simp, by simp,
      fun h _ => absurd h (by decide), fun h _ => absurd h (by decide),
      fun _ => rfl⟩
  | E_DIAL_BACK_ERROR =>
    have hres : processDialResponse resp high low env.raceOutcome =
        .ok ⟨resp.addrIdx, addrAt high low resp.addrIdx, .Unknown,
          .E_DIAL_BACK_ERROR⟩ := by
      simp [processDialResponse, hst, hd, newResults, hnotge]
    exact ⟨_, hres, rfl, rfl, by simp, by simp,
      fun h _ => absurd h (by decide), fun h _ => absurd h (by decide),
      fun _ => rfl⟩

/-- Witness for C1 (amended): status OK, dial status OK at index 0, and a
dial-back address sharing `addr4`'s protocol codes (different port) arrives —
the classification is public with status OK. -/
theorem CheckReachability_ok_classification_witness :
    ∃ r : Result,
      (CheckReachability ⟨true, true, true, true,
        some (.dialResponse ⟨.OK, .OK, 0⟩), none, none, some addr4b, 7, 0⟩
        [addr4] [] []).res = .ok r ∧
      r.reachability = .Public ∧ r.status = .OK := by
  obtain ⟨r, hres, _, _, hpub, _, hok, _, _⟩ :=
    CheckReachability_ok_classification
      ⟨true, true, true, true, some (.dialResponse ⟨.OK, .OK, 0⟩), none,
        none, some addr4b, 7, 0⟩
      [addr4] [] [] ⟨.OK, .OK, 0⟩ ⟨rfl, rfl, rfl, rfl⟩ (Or.inl rfl) rfl
      (by decide) (by decide)
  exact ⟨r, hres, hpub.mpr ⟨rfl, by decide⟩, hok rfl (by decide)⟩

/-- Counterexample to C1 as stated: a Dial Response with top-level status OK,
dial status OK (not UNUSED) and no consistent dial-back, but whose address
index (1) is out of range for the single-address request — the call returns
an error, not a downgraded `Result`. -/
theorem CheckReachability_ok_dialback_counterexample :
    (DialResponse.mk .OK .OK 1).status = .OK ∧
      (DialResponse.mk .OK .OK 1).dialStatus ≠ .UNUSED ∧
      (CheckReachability ⟨true, true, true, true,
        some (.dialResponse ⟨.OK, .OK, 1⟩), none, none, none, 7, 0⟩
        [addr4] [] []).res = .error (.addrIdxOutOfRange 1) := by
  refine ⟨rfl, by decide, ?_⟩
  rfl

/-! ## WebTransport listener (`httpHandler`, accept queue, `Accept`) -/

/-- A fully upgraded connection; only its identity matters to the queue
claims. -/
structure Conn where
  id : Nat
deriving DecidableEq, Repr

/-- `queueLen`: capacity of the accept queue. -/
def queueLen : Nat := 16

/-- `http.StatusBadRequest`. -/
def statusBadRequest : Nat := 400

/-- `http.StatusForbidden`. -/
def statusForbidden : Nat := 403

/-- `http.StatusServiceUnavailable`. -/
def statusServiceUnavailable : Nat := 503

/-- Modelled from the spec: the dedicated session error code used when the
secured-connection gater rejects a peer ("a dedicated gating error code");
`errorCodeConnectionGating` is declared outside the source on hand, and only
its distinctness from the generic code 1 is ever relied on. -/
def errorCodeConnectionGating : Nat := 336

/-- The check on `r.URL.Query()["type"]`: present (`some`), exactly one
value, and that value is `"noise"`. -/
def queryTypeValid : Option (List String) → Bool
  | some [s] => s == "noise"
  | _ => false

/-- The non-deterministic surroundings of one `httpHandler` invocation: the
request's `type` query values, and which collaborator calls succeed. -/
structure HHEnv where
  queryType : Option (List String)
  remoteAddrOk : Bool
  gaterPresent : Bool
  interceptAccept : Bool
  openConnectionOk : Bool
  upgradeOk : Bool
  handshakeOk : Bool
  interceptSecured : Bool
  setPeerOk : Bool
  conn : Conn
deriving DecidableEq, Repr

/-- Observable outcome of one `httpHandler` invocation: HTTP status written
(if any), whether `OpenConnection` succeeded, how often `connScope.Done()`
ran, whether the connection was enqueued, the `CloseWithError` code (if
any), which stages ran, and the accept queue afterwards. -/
structure HHOut where
  status : Option Nat := none
  reservationOpened : Bool := false
  doneCalls : Nat := 0
  enqueued : Bool := false
  sessionClose : Option Nat := none
  gaterAcceptConsulted : Bool := false
  upgradeAttempted : Bool := false
  handshakeAttempted : Bool := false
  queue : List Conn
deriving DecidableEq, Repr

/-- `listener.httpHandler` with the accept queue threaded as state.  The
final `select` sends into the buffered channel without blocking: when the
queue has a free slot the connection is appended, otherwise the `default`
branch closes the session with code 1 and releases the reservation. -/
def httpHandler (env : HHEnv) (q : List Conn) : HHOut :=
  if ¬queryTypeValid env.queryType then
    { status := some statusBadRequest, queue := q }
  else if ¬env.remoteAddrOk then
    { status := some statusBadRequest, queue := q }
  else if env.gaterPresent ∧ ¬env.interceptAccept then
    { status := some statusForbidden, gaterAcceptConsulted := true,
      queue := q }
  else if ¬env.openConnectionOk then
    { status := some statusServiceUnavailable,
      gaterAcceptConsulted := env.gaterPresent, queue := q }
  else if ¬env.upgradeOk then
    { status := some 500, reservationOpened := true, doneCalls := 1,
      gaterAcceptConsulted := env.gaterPresent, upgradeAttempted := true,
      queue := q }
  else if ¬env.handshakeOk then
    { reservationOpened := true, doneCalls := 1, sessionClose := some 1,
      gaterAcceptConsulted := env.gaterPresent, upgradeAttempted := true,
      handshakeAttempted := true, queue := q }
  else if env.gaterPresent ∧ ¬env.interceptSecured then
    { reservationOpened := true, doneCalls := 1,
      sessionClose := some errorCodeConnectionGating,
      gaterAcceptConsulted := env.gaterPresent, upgradeAttempted := true,
      handshakeAttempted := true, queue := q }
  else if ¬env.setPeerOk then
    { reservationOpened := true, doneCalls := 1, sessionClose := some 1,
      gaterAcceptConsulted := env.gaterPresent, upgradeAttempted := true,
      handshakeAttempted := true, queue := q }
  else if q.length < queueLen then
    { reservationOpened := true, enqueued := true,
      gaterAcceptConsulted := env.gaterPresent, upgradeAttempted := true,
      handshakeAttempted := true, queue := q ++ [env.conn] }
  else
    { reservationOpened := true, doneCalls := 1, sessionClose := some 1,
      gaterAcceptConsulted := env.gaterPresent, upgradeAttempted := true,
      handshakeAttempted := true, queue := q }

/-- Listener state seen by `Accept`: whether the lifetime context has been
cancelled, and the queued connections in FIFO order. -/
structure ListenerState where
  ctxCancelled : Bool
  queue : List Conn
deriving DecidableEq, Repr

/-- The two possible returns of `Accept`: the `errClosed` error or a
connection. -/
inductive AcceptOutcome where
  | closed
  | conn (c : Conn)
deriving DecidableEq, Repr

/-- One evaluation of the `select` in `listener.Accept`.  Go chooses among
ready cases non-deterministically, so this is a relation: the `ctx.Done()`
case is ready exactly when the context is cancelled, the receive case
exactly when the queue is non-empty, and no step exists (Accept blocks) when
neither is ready. -/
inductive AcceptStep : ListenerState → AcceptOutcome → ListenerState → Prop where
  | ctxDone (s : ListenerState) (h : s.ctxCancelled = true) :
      AcceptStep s .closed s
  | dequeue (s : ListenerState) (c : Conn) (rest : List Conn)
      (h : s.queue = c :: rest) :
      AcceptStep s (.conn c) ⟨s.ctxCancelled, rest⟩

/-- C2: whenever the handler's resource-manager reservation is opened
(`OpenConnection` succeeds), exactly one release occurs — either a
`connScope.Done()` call or the hand-off of the scope to the enqueued
Connection — on every exit path: upgrade failure, handshake failure,
secured-gater rejection, SetPeer failure, queue-full, and success. -/
theorem httpHandler_release_once (env : HHEnv) (q : List Conn)
    (h : (httpHandler env q).reservationOpened = true) :
    (httpHandler env q).doneCalls +
      (if (httpHandler env q).enqueued then 1 else 0) = 1 := by
  have key : ∀ o : HHOut, o = httpHandler env q →
      o.reservationOpened = true →
      o.doneCalls + (if o.enqueued then 1 else 0) = 1 := by
    intro o ho
    unfold httpHandler at ho
    split_ifs at ho <;> subst ho <;> simp
  exact key _ rfl h

set_option maxHeartbeats 1000000 in
/-- Witness for C2 at a concrete queue-full invocation. -/
theorem httpHandler_release_once_witness :
    (httpHandler ⟨some ["noise"], true, false, false, true, true, true,
        false, true, ⟨99⟩⟩ (List.range queueLen |>.map Conn.mk)).doneCalls +
      (if (httpHandler ⟨some ["noise"], true, false, false, true, true, true,
        false, true, ⟨99⟩⟩ (List.range queueLen |>.map Conn.mk)).enqueued
       then 1 else 0) = 1 :=
  httpHandler_release_once
    ⟨some ["noise"], true, false, false, true, true, true, false, true, ⟨99⟩⟩
    (List.range queueLen |>.map Conn.mk) (by decide)

/-- All collaborator checks ahead of the final enqueue succeed, so the
handler reaches the `select` on the accept queue. -/
def reachesEnqueue (env : HHEnv) : Prop :=
  queryTypeValid env.queryType = true ∧ env.remoteAddrOk = true ∧
    (env.gaterPresent = true → env.interceptAccept = true) ∧
    env.openConnectionOk = true ∧ env.upgradeOk = true ∧
    env.handshakeOk = true ∧
    (env.gaterPresent = true → env.interceptSecured = true) ∧
    env.setPeerOk = true

set_option linter.unnecessarySeqFocus false in
/-- C5: the accept queue never grows past its capacity of 16; under a full
queue the handler never enqueues (the producing task is never blocked: the
`select`'s `default` branch runs instead), and when the upgrade path reaches
the enqueue with a full queue the new connection is dropped, its session
closed with error code 1 and its reservation released. -/
theorem httpHandler_queue_bounded (env : HHEnv) (q : List Conn)
    (hq : q.length ≤ queueLen) :
    (httpHandler env q).queue.length ≤ queueLen ∧
    (q.length = queueLen →
      (httpHandler env q).enqueued = false ∧ (httpHandler env q).queue = q) ∧
    (q.length = queueLen → reachesEnqueue env →
      (httpHandler env q).sessionClose = some 1 ∧
      (httpHandler env q).doneCalls = 1 ∧
      (httpHandler env q).reservationOpened = true) := by
  unfold httpHandler
  split_ifs with h1 h2 h3 h4 h5 h6 h7 h8 h9 <;>
    refine ⟨?_, fun hful => ?_, fun hful hre => ?_⟩ <;>
    simp_all [reachesEnqueue] <;> omega

/-- Witness for C5 at a concrete full queue. -/
theorem httpHandler_queue_bounded_witness :
    (httpHandler ⟨some ["noise"], true, true, true, true, true, true,
        true, true, ⟨99⟩⟩ (List.range queueLen |>.map Conn.mk)).sessionClose
      = some 1 ∧
    (httpHandler ⟨some ["noise"], true, true, true, true, true, true,
        true, true, ⟨99⟩⟩ (List.range queueLen |>.map Conn.mk)).doneCalls
      = 1 := by
  have h := httpHandler_queue_bounded
    ⟨some ["noise"], true, true, true, true, true, true, true, true, ⟨99⟩⟩
    (List.range queueLen |>.map Conn.mk) (by decide)
  obtain ⟨-, -, h3⟩ := h
  obtain ⟨hc, hd, -⟩ := h3 (by decide)
    ⟨rfl, rfl, fun _ => rfl, rfl, rfl, rfl, fun _ => rfl, rfl⟩
  exact ⟨hc, hd⟩

/-- C9 (amended: the rejection status for a remote-address translation
failure is the same bad-request status used for a missing or mismatched
sub-protocol selector, not a distinct internal-fault status): with a valid
selector but a failing address translation, the handler writes the
bad-request status and stops — the gater is never consulted, no reservation
is opened, and neither the transport upgrade nor the handshake runs. -/
theorem httpHandler_remoteAddr_failure (env : HHEnv) (q : List Conn)
    (hsel : queryTypeValid env.queryType = true)
    (hra : env.remoteAddrOk = false) :
    (httpHandler env q).status = some statusBadRequest ∧
    (httpHandler env q).gaterAcceptConsulted = false ∧
    (httpHandler env q).reservationOpened = false ∧
    (httpHandler env q).upgradeAttempted = false ∧
    (httpHandler env q).handshakeAttempted = false ∧
    (httpHandler env q).doneCalls = 0 ∧
    (httpHandler env q).enqueued = false ∧
    (httpHandler env q).queue = q := by
  unfold httpHandler
  simp [hsel, hra]

/-- Witness for C9 (amended) at a concrete request. -/
theorem httpHandler_remoteAddr_failure_witness :
    (httpHandler ⟨some ["noise"], false, true, true, true, true, true,
        true, true, ⟨0⟩⟩ []).status = some statusBadRequest ∧
    (httpHandler ⟨some ["noise"], false, true, true, true, true, true,
        true, true, ⟨0⟩⟩ []).reservationOpened = false := by
  have h := httpHandler_remoteAddr_failure
    ⟨some ["noise"], false, true, true, true, true, true, true, true, ⟨0⟩⟩
    [] (by decide) rfl
  exact ⟨h.1, h.2.2.1⟩

/-- Counterexample to C9 as stated: address-translation failure is rejected
with `statusBadRequest` — exactly the status written for a missing
sub-protocol selector — not a distinct internal-fault status. -/
theorem httpHandler_remoteAddr_status_counterexample :
    (httpHandler ⟨some ["noise"], false, true, true, true, true, true,
        true, true, ⟨0⟩⟩ []).status =
      (httpHandler ⟨none, true, true, true, true, true, true,
        true, true, ⟨0⟩⟩ []).status ∧
    (httpHandler ⟨some ["noise"], false, true, true, true, true, true,
        true, true, ⟨0⟩⟩ []).status = some statusBadRequest := by
  exact ⟨rfl, rfl⟩

/-- C8 (amended: Go's `select` picks among ready cases non-deterministically,
so when the context is cancelled while connections are queued, `Accept` may
return a connection instead of the closed error, as the counterexample
forces): `Accept` returns the closed error only if the lifetime context has
been cancelled; when cancelled, the closed return is a possible outcome, and
with an empty queue it is the only possible outcome; when not cancelled, the
only possible outcome dequeues the oldest queued Connection (FIFO); and with
no cancellation and an empty queue, `Accept` blocks (no outcome exists). -/
theorem Accept_characterization (s : ListenerState) :
    (∀ o s', AcceptStep s o s' → o = .closed → s.ctxCancelled = true) ∧
    (s.ctxCancelled = true → AcceptStep s .closed s) ∧
    (s.ctxCancelled = true → s.queue = [] →
      ∀ o s', AcceptStep s o s' → o = .closed ∧ s' = s) ∧
    (s.ctxCancelled = false → ∀ o s', AcceptStep s o s' →
      ∀ c rest, s.queue = c :: rest →
        o = .conn c ∧ s' = ⟨false, rest⟩) ∧
    (s.ctxCancelled = false → s.queue = [] →
      ∀ o s', ¬AcceptStep s o s') := by
  refine ⟨?_, fun h => .ctxDone s h, ?_, ?_, ?_⟩
  · intro o s' h hc
    cases h with
    | ctxDone h1 => exact h1
    | dequeue c rest h1 => cases hc
  · intro hc hq o s' h
    cases h with
    | ctxDone h1 => exact ⟨rfl, rfl⟩
    | dequeue c rest h1 => rw [hq] at h1; cases h1
  · intro hc o s' h c rest hq
    cases h with
    | ctxDone h1 => rw [hc] at h1; cases h1
    | dequeue c' rest' h1 =>
      rw [hq] at h1
      injection h1 with h2 h3
      subst h2; subst h3
      exact ⟨rfl, by rw [hc]⟩
  · intro hc hq o s' h
    cases h with
    | ctxDone h1 => rw [hc] at h1; cases h1
    | dequeue c rest h1 => rw [hq] at h1; cases h1

/-- Witness for C8 (amended): on a cancelled listener with an empty queue
the closed outcome exists and every outcome is closed, and on a live
listener with an empty queue no outcome exists. -/
theorem Accept_characterization_witness :
    AcceptStep ⟨true, []⟩ .closed ⟨true, []⟩ ∧
      (AcceptStep ⟨true, []⟩ .closed ⟨true, []⟩ →
        AcceptOutcome.closed = .closed) ∧
      ¬AcceptStep ⟨false, []⟩ .closed ⟨false, []⟩ :=
  ⟨(Accept_characterization ⟨true, []⟩).2.1 rfl,
    fun h =>
      ((Accept_characterization ⟨true, []⟩).2.2.1 rfl rfl .closed
        ⟨true, []⟩ h).1,
    (Accept_characterization ⟨false, []⟩).2.2.2.2 rfl rfl .closed
      ⟨false, []⟩⟩

/-- Counterexample to C8 as stated: with the lifetime context cancelled but a
connection still queued, `Accept`'s `select` may take the receive case and
return that connection, so a cancelled context does not force the closed
error. -/
theorem Accept_cancelled_counterexample :
    AcceptStep ⟨true, [⟨0⟩]⟩ (.conn ⟨0⟩) ⟨true, []⟩ ∧
      AcceptOutcome.conn ⟨0⟩ ≠ .closed ∧
      (ListenerState.mk true [⟨0⟩]).ctxCancelled = true :=
  ⟨.dequeue ⟨true, [⟨0⟩]⟩ ⟨0⟩ [] rfl, by decide, rfl⟩

/-! ## Dial-back handler (`handleDialBack`) -/

/-- Shared state touched by the dial-back handler: the nonce-to-channel map
(`dialBackQueues`) and, separately, each one-slot channel's buffered content
— in Go the map stores channel references, so delivering into a channel does
not modify the map itself. -/
structure CorrState where
  queues : List (Nat × ChanId)
  chans : List (ChanId × Option Multiaddr)
deriving DecidableEq, Repr

/-- The surroundings of one `handleDialBack` invocation: which collaborator
calls succeed, the Dial-Back message's nonce (`none` = read error), and the
stream's observed local address. -/
structure DBEnv where
  setServiceOk : Bool
  reserveMemoryOk : Bool
  readMsg : Option Nat
  localAddr : Multiaddr
deriving DecidableEq, Repr

/-- Contents lookup for a channel identity. -/
def lookupChan (cs : List (ChanId × Option Multiaddr)) (cid : ChanId) :
    Option (Option Multiaddr) :=
  (cs.find? (fun p => p.1 == cid)).map (·.2)

/-- Non-blocking delivery into a one-slot channel: fill it if present and
empty. -/
def fillChan (cs : List (ChanId × Option Multiaddr)) (cid : ChanId)
    (a : Multiaddr) : List (ChanId × Option Multiaddr) :=
  cs.map (fun p => if p.1 = cid then (p.1, some a) else p)

/-- `Client.handleDialBack`: after the service/memory reservations and the
message read, look the nonce up in `dialBackQueues` under the mutex (a Go map
read of a missing key yields the nil channel) and attempt a non-blocking send
of the stream's local address; a nil channel or a full buffer hits the
`select`'s `default` branch and the notification is dropped. -/
def handleDialBack (env : DBEnv) (st : CorrState) : CorrState :=
  if ¬env.setServiceOk then st
  else if ¬env.reserveMemoryOk then st
  else
    match env.readMsg with
    | none => st
    | some nonce =>
      match lookupQ st.queues nonce with
      | none => st
      | some cid =>
        match lookupChan st.chans cid with
        | some none => ⟨st.queues, fillChan st.chans cid env.localAddr⟩
        | _ => st

/-- C10: the dial-back handler never inserts into or removes from the
nonce-to-channel map — `queues` is unchanged on every path — and when the
received nonce has no registered entry the non-blocking delivery drops the
notification and the whole state is returned unchanged. -/
theorem handleDialBack_map_frame (env : DBEnv) (st : CorrState) :
    (handleDialBack env st).queues = st.queues ∧
    (∀ nonce, env.readMsg = some nonce → lookupQ st.queues nonce = none →
      handleDialBack env st = st) := by
  constructor
  · unfold handleDialBack
    split_ifs <;>
      first
      | rfl
      | (cases env.readMsg with
         | none => rfl
         | some nonce =>
           cases hl : lookupQ st.queues nonce with
           | none => simp [hl]
           | some cid =>
             cases hc : lookupChan st.chans cid with
             | none => simp [hl, hc]
             | some buf => cases buf <;> simp [hl, hc])
  · intro nonce hmsg hnone
    unfold handleDialBack
    simp only [hmsg, hnone]
    split_ifs <;> rfl

/-- Witness for C10: a dial-back carrying nonce 5 while only nonce 7 is
registered leaves the whole state untouched. -/
theorem handleDialBack_map_frame_witness :
    (handleDialBack ⟨true, true, some 5, addr4⟩
        ⟨[(7, 0)], [(0, none)]⟩).queues = [(7, 0)] ∧
      handleDialBack ⟨true, true, some 5, addr4⟩ ⟨[(7, 0)], [(0, none)]⟩ =
        ⟨[(7, 0)], [(0, none)]⟩ :=
  ⟨(handleDialBack_map_frame ⟨true, true, some 5, addr4⟩
      ⟨[(7, 0)], [(0, none)]⟩).1,
    (handleDialBack_map_frame ⟨true, true, some 5, addr4⟩
      ⟨[(7, 0)], [(0, none)]⟩).2 5 rfl (by decide)⟩

end LibP2P
